import Mathlib

/-!
Shallow embedding of the identity-resolution and caching core of the
weeelab telegram bot (source file LdapWrapper.py).

Modelling conventions, used throughout:

* LDAP attribute values arrive as byte strings and are always decoded to
  text by the source; the model works directly with `String` values.
  An attribute map is an association list from attribute name to the list
  of values of that attribute.
* LDAP attribute names are case-insensitive on the server.  python-ldap
  returns result keys as the server sends them, and in the deployed schema
  these coincide with the names the code looks up.  The model therefore
  matches attribute names case-insensitively everywhere.
* LDAP filters are modelled structurally: each concrete filter string of
  the source becomes a boolean predicate on entries.  Filter escaping
  (escape_filter_chars) is the identity in this structural model.
* The directory is a pair of entry lists, one per search base: the people
  tree and the invite tree.  search_s over a tree with a filter is
  `List.filter` of the corresponding predicate; modify_s rewrites the
  attributes of every entry of the tree with the given dn.
* Wall-clock time is threaded explicitly as a `Nat` parameter `now`
  standing for time().
* Python dict subscripting can raise KeyError and list subscripting can
  raise IndexError; fallible accesses return `Except PyErr`.
-/

/-- Python-level exceptions that can escape attribute or dict access:
KeyError from dict subscripting, IndexError from list subscripting,
ValueError from int(), TypeError from calling dict.pop() with no key. -/
inductive PyErr where
  | keyError (key : String)
  | indexError
  | valueError
  | typeError
deriving DecidableEq, Repr

/-- The typed failure surface of LdapWrapper (the BaseException
subclasses).  noSuchObject models ldap.NO_SUCH_OBJECT, the gateway-level
error a base-scope read raises for a missing dn; like pyError it is
outside the typed taxonomy, so nothing in the source catches it. -/
inductive LdapError where
  | accountNotFound
  | duplicateEntry
  | accountLocked
  | accountNotCompleted (invite_code : String)
  | noSuchObject
  | pyError (e : PyErr)
deriving DecidableEq, Repr

/-- Decidable equality of Except results, so the model can be evaluated
at concrete inputs. -/
instance {ε α : Type} [DecidableEq ε] [DecidableEq α] : DecidableEq (Except ε α) := fun a b =>
  match a, b with
  | .ok x, .ok y =>
    if h : x = y then .isTrue (by rw [h]) else .isFalse (fun hc => h (Except.ok.inj hc))
  | .error x, .error y =>
    if h : x = y then .isTrue (by rw [h]) else .isFalse (fun hc => h (Except.error.inj hc))
  | .ok _, .error _ => .isFalse (fun hc => Except.noConfusion hc)
  | .error _, .ok _ => .isFalse (fun hc => Except.noConfusion hc)

/-- An LDAP attribute map: attribute name to list of decoded values. -/
abbrev AttrMap := List (String × List String)

/-- ASCII lower-casing of one character (the model of str.lower, which the
source only applies to ASCII account names and attribute names). -/
def lowerChar (c : Char) : Char :=
  if 65 ≤ c.toNat ∧ c.toNat ≤ 90 then Char.ofNat (c.toNat + 32) else c

/-- ASCII lower-casing of a string. -/
def strLower (s : String) : String := String.mk (s.data.map lowerChar)

/-- Case-insensitive attribute-name comparison (LDAP semantics). -/
def keyEq (a b : String) : Bool := strLower a == strLower b

/-- Look an attribute up by name, case-insensitively. -/
def findAttr (m : AttrMap) (k : String) : Option (List String) :=
  (m.find? (fun p => keyEq p.1 k)).map Prod.snd

/-- Python: k in attributes. -/
def hasAttr (m : AttrMap) (k : String) : Bool := (findAttr m k).isSome

/-- Does attribute k carry value v (used by equality filters). -/
def attrHasValue (m : AttrMap) (k v : String) : Bool :=
  match findAttr m k with
  | none => false
  | some vs => vs.contains v

/-- Python: attributes[k][0].decode(): KeyError when the attribute is
absent, IndexError when its value list is empty. -/
def attrFirst (m : AttrMap) (k : String) : Except PyErr String :=
  match findAttr m k with
  | none => .error (.keyError k)
  | some [] => .error .indexError
  | some (v :: _) => .ok v

/-- A directory entry: distinguished name plus attributes. -/
structure Entry where
  dn : String
  attrs : AttrMap
deriving DecidableEq, Repr

/-- The directory state: the users tree and the invite tree. -/
structure Directory where
  people : List Entry
  invites : List Entry
deriving DecidableEq, Repr

/-- MOD_REPLACE k v: drop every value of attribute k and set the single
value v. -/
def replaceAttr (m : AttrMap) (k : String) (v : String) : AttrMap :=
  (k, [v]) :: m.filter (fun p => !keyEq p.1 k)

/-- MOD_DELETE k None: drop attribute k entirely.  (The gateway error on
deleting an absent attribute is not modelled; the spec treats delete as
making the attribute absent.) -/
def deleteAttr (m : AttrMap) (k : String) : AttrMap :=
  m.filter (fun p => !keyEq p.1 k)

/-- modify_s against the people tree: rewrite the attributes of every
entry with the given dn. -/
def modifyPeople (dir : Directory) (dn : String) (f : AttrMap → AttrMap) : Directory :=
  { dir with people := dir.people.map (fun e => if e.dn == dn then { e with attrs := f e.attrs } else e) }

/-- modify_s against the invite tree. -/
def modifyInvites (dir : Directory) (dn : String) (f : AttrMap → AttrMap) : Directory :=
  { dir with invites := dir.invites.map (fun e => if e.dn == dn then { e with attrs := f e.attrs } else e) }

/-- User.is_admin: membership-derived admin flag (LdapWrapper.py 343-350). -/
def is_admin (admin_groups : List String) (attributes : AttrMap) : Bool :=
  match findAttr attributes "memberof" with
  | none => false
  | some groups => groups.any (fun g => admin_groups.contains g)

/-- Filter (objectClass=weeeOpenPerson), used by People.__sync and as a
conjunct of the user searches. -/
def isWeeeOpenPerson (e : Entry) : Bool := attrHasValue e.attrs "objectClass" "weeeOpenPerson"

/-- Filter of User.__search_by_tgid (line 275):
(&(objectClass=weeeOpenPerson)(telegramId=tgid)). -/
def matchesTgid (tgid : Int) (e : Entry) : Bool :=
  isWeeeOpenPerson e && attrHasValue e.attrs "telegramId" (toString tgid)

/-- Filter of User.__get_invite_from_tgid (line 326):
(&(inviteCode=*)(telegramId=tgid)). -/
def matchesInviteTgid (tgid : Int) (e : Entry) : Bool :=
  hasAttr e.attrs "inviteCode" && attrHasValue e.attrs "telegramId" (toString tgid)

/-- Filter of User.__search_by_nickname (line 313):
(&(objectClass=weeeOpenPerson)(!(telegramId=*))(telegramNickname=tgnick)). -/
def matchesNickNoId (tgnick : String) (e : Entry) : Bool :=
  isWeeeOpenPerson e && !hasAttr e.attrs "telegramId" &&
    attrHasValue e.attrs "telegramNickname" tgnick

/-- Filter of Users.update_invite (line 89): (inviteCode=code). -/
def matchesInviteCode (code : String) (e : Entry) : Bool :=
  attrHasValue e.attrs "inviteCode" code

/-- User.__get_stored_nickname (336-341): the first value of
telegramnickname if the attribute is present, else None.  Subscripting an
empty value list would raise IndexError. -/
def get_stored_nickname (attributes : AttrMap) : Except PyErr (Option String) :=
  if hasAttr attributes "telegramnickname" then
    (attrFirst attributes "telegramnickname").map some
  else .ok none

/-- User.__update_nickname (359-368): delete telegramNickname when the new
value is None, else replace it. -/
def update_nickname (dir : Directory) (dn : String) (new_nickname : Option String) : Directory :=
  match new_nickname with
  | none => modifyPeople dir dn (fun m => deleteAttr m "telegramNickname")
  | some n => modifyPeople dir dn (fun m => replaceAttr m "telegramNickname" n)

/-- User.__update_id (370-374): replace telegramId with the new id. -/
def update_id (dir : Directory) (dn : String) (new_id : Int) : Directory :=
  modifyPeople dir dn (fun m => replaceAttr m "telegramId" (toString new_id))

/-- User.__get_invite_from_tgid (324-333): search the invite tree; None on
zero matches, DuplicateEntry on several, else the inviteCode value. -/
def get_invite_from_tgid (tgid : Int) (dir : Directory) : Except LdapError (Option String) :=
  match dir.invites.filter (matchesInviteTgid tgid) with
  | [] => .ok none
  | [e] =>
    match attrFirst e.attrs "inviteCode" with
    | .ok c => .ok (some c)
    | .error pe => .error (.pyError pe)
  | _ => .error .duplicateEntry

/-- User.__search_by_tgid (264-296): search the people tree by Telegram id;
on zero results consult the invite tree (AccountNotCompleted when a pending
invite carries this id, AccountNotFound otherwise); DuplicateEntry on
several results; else the attributes and dn of the only result. -/
def search_by_tgid (tgid : Int) (dir : Directory) : Except LdapError (AttrMap × String) :=
  match dir.people.filter (matchesTgid tgid) with
  | [] =>
    match get_invite_from_tgid tgid dir with
    | .error e => .error e
    | .ok none => .error .accountNotFound
    | .ok (some invite) => .error (.accountNotCompleted invite)
  | [e] => .ok (e.attrs, e.dn)
  | _ => .error .duplicateEntry

/-- User.__search_by_nickname (298-322): search the people tree for the
nickname among entries lacking telegramId; on exactly one match write the
Telegram id into that entry (a directory mutation) and re-run the search
by id.  The possibly mutated directory is returned on every path, as the
source raises exceptions without rolling back the modify. -/
def search_by_nickname (tgnick : String) (tgid : Int) (dir : Directory) :
    Except LdapError (AttrMap × String) × Directory :=
  match dir.people.filter (matchesNickNoId tgnick) with
  | [] => (.error .accountNotFound, dir)
  | [e] =>
    let dir1 := update_id dir e.dn tgid
    (search_by_tgid tgid dir1, dir1)
  | _ => (.error .duplicateEntry, dir)

/-- A cached resolved profile (dataclass User, 166-185).  last_update is
set by __post_init__ and __set_update_time; need_update compares its age
to the 3600 second TTL. -/
structure User where
  dn : String
  tgid : Int
  uid : String
  cn : String
  givenname : String
  surname : String
  isadmin : Bool
  nickname : Option String
  last_update : Nat
deriving DecidableEq, Repr

/-- User.need_update (184-185): time() - last_update > 3600.  Time is a
Nat and monotone, so truncated subtraction agrees with the source. -/
def User.need_update (u : User) (now : Nat) : Bool := now - u.last_update > 3600

/-- Lines 253-262 of User.search, shared by both search paths: reject a
locked entry, derive the admin flag, reconcile the stored nickname with
the caller-supplied one (a directory modify when they differ), and build
the User from the entry attributes.  Attribute accesses happen in source
order, after the nickname modify. -/
def resolveEntry (tgid : Int) (tgnick : Option String) (admin_groups : List String)
    (attributes : AttrMap) (dn : String) (dir : Directory) (now : Nat) :
    Except LdapError User × Directory :=
  if hasAttr attributes "nsaccountlock" then (.error .accountLocked, dir)
  else
    let isadmin := is_admin admin_groups attributes
    match get_stored_nickname attributes with
    | .error e => (.error (.pyError e), dir)
    | .ok nickname =>
      let dir1 := if nickname ≠ tgnick then update_nickname dir dn tgnick else dir
      match attrFirst attributes "uid", attrFirst attributes "cn",
            attrFirst attributes "givenname", attrFirst attributes "sn" with
      | .ok uid, .ok cn, .ok givenname, .ok sn =>
        (.ok ⟨dn, tgid, uid, cn, givenname, sn, isadmin, tgnick, now⟩, dir1)
      | .error e, _, _, _ => (.error (.pyError e), dir1)
      | _, .error e, _, _ => (.error (.pyError e), dir1)
      | _, _, .error e, _ => (.error (.pyError e), dir1)
      | _, _, _, .error e => (.error (.pyError e), dir1)

/-- User.search (230-262): resolve by Telegram id, falling back to the
nickname search only on AccountNotFound and only when a nickname was
supplied, then continue with the shared tail (resolveEntry). -/
def User.search (tgid : Int) (tgnick : Option String) (admin_groups : List String)
    (dir : Directory) (now : Nat) : Except LdapError User × Directory :=
  match search_by_tgid tgid dir with
  | .ok (attributes, dn) => resolveEntry tgid tgnick admin_groups attributes dn dir now
  | .error .accountNotFound =>
    match tgnick with
    | none => (.error .accountNotFound, dir)
    | some nick =>
      match search_by_nickname nick tgid dir with
      | (.ok (attributes, dn), dir1) => resolveEntry tgid tgnick admin_groups attributes dn dir1 now
      | (.error e, dir1) => (.error e, dir1)
  | .error e => (.error e, dir)

/-- Projection of an attribute map to a requested attribute list, as an
LDAP server applies it to a search or read result: only requested
attributes can appear (matched case-insensitively). -/
def restrictAttrs (m : AttrMap) (keys : List String) : AttrMap :=
  m.filter (fun p => keys.any (fun k => keyEq k p.1))

/-- The attribute list User.update passes to conn.read_s (198-207).  Note
it requests sn, not surname. -/
def updateReadAttrs : List String :=
  ["uid", "cn", "givenname", "sn", "memberof", "telegramnickname", "telegramid", "nsaccountlock"]

/-- conn.read_s(dn, None, attrlist), python-ldap 3.x: a base-scope search
at the dn that returns the single entry as its attribute dict, restricted
to the requested attributes; a missing dn raises ldap.NO_SUCH_OBJECT.
(A base-scope search matches at most one entry; should the model hold
several entries with the same dn, the first one stands for it.) -/
def read_s (dir : Directory) (dn : String) (attrlist : List String) :
    Except LdapError AttrMap :=
  match dir.people.filter (fun e => e.dn == dn) with
  | [] => .error .noSuchObject
  | e :: _ => .ok (restrictAttrs e.attrs attrlist)

set_option linter.unusedVariables false in
/-- User.update (187-228), the in-place staleness refresh.  The source
treats the attribute dict that read_s returns as if it were a result
list: len(result) counts the attributes present on the entry, so line 208
raises AccountNotFoundError when the entry carries none of the requested
attributes, line 210 raises DuplicateEntryError when it carries two or
more, and in the remaining one-attribute case __extract_the_only_result
(line 354) calls result.pop() with no key argument, which on a dict
raises TypeError.  Everything after line 213 - the nsaccountlock check,
the field reassignment (including the attributes[surname] access at line
223), the nickname reconciliation and the timestamp refresh - is
unreachable, so the refresh never completes and the method only ever
raises.  The parameters of the source signature are kept even though the
reachable part no longer reads them. -/
def User.update (u : User) (dir : Directory) (admin_groups : List String)
    (also_nickname : Bool) (nickname : Option String) (now : Nat) :
    Except LdapError User × Directory :=
  match read_s dir u.dn updateReadAttrs with
  | .error e => (.error e, dir)
  | .ok result =>
    if result.length == 0 then (.error .accountNotFound, dir)
    else if result.length > 1 then (.error .duplicateEntry, dir)
    else (.error (.pyError .typeError), dir)

/-- The Identity Cache map, Python dict from Telegram id to User. -/
abbrev UsersMap := List (Int × User)

/-- Dict lookup users[tgid]. -/
def lookupUser (m : UsersMap) (tgid : Int) : Option User :=
  (m.find? (fun p => p.1 == tgid)).map Prod.snd

/-- Dict assignment users[tgid] = u. -/
def insertUser (m : UsersMap) (tgid : Int) (u : User) : UsersMap :=
  (tgid, u) :: m.filter (fun p => p.1 != tgid)

/-- Dict deletion del users[tgid]. -/
def eraseUser (m : UsersMap) (tgid : Int) : UsersMap :=
  m.filter (fun p => p.1 != tgid)

/-- Lines 80-82 of Users.get, the cold-resolution tail: run the full
search and cache the result on success; a failure propagates and caches
nothing. -/
def Users.cold (admin_groups : List String) (users : UsersMap) (tgid : Int)
    (nickname : Option String) (dir : Directory) (now : Nat) :
    Except LdapError User × UsersMap × Directory :=
  match User.search tgid nickname admin_groups dir now with
  | (.ok u, dir1) => (.ok u, insertUser users tgid u, dir1)
  | (.error e, dir1) => (.error e, users, dir1)

/-- Users.get (58-84): return a fresh cached user immediately; refresh a
stale one in place, evicting it and falling through to cold resolution
when the refresh raises AccountNotFound, AccountLocked or DuplicateEntry
(any other exception, such as the KeyError of update, propagates without
eviction); resolve cold on a miss.  The successful in-place refresh
mutates the cached object, so the cache holds the refreshed user. -/
def Users.get (admin_groups : List String) (users : UsersMap) (tgid : Int)
    (nickname : Option String) (dir : Directory) (now : Nat) :
    Except LdapError User × UsersMap × Directory :=
  match lookupUser users tgid with
  | some user =>
    if !user.need_update now then (.ok user, users, dir)
    else
      match user.update dir admin_groups true nickname now with
      | (.ok u1, dir1) => (.ok u1, insertUser users tgid u1, dir1)
      | (.error .accountNotFound, dir1) => Users.cold admin_groups (eraseUser users tgid) tgid nickname dir1 now
      | (.error .accountLocked, dir1) => Users.cold admin_groups (eraseUser users tgid) tgid nickname dir1 now
      | (.error .duplicateEntry, dir1) => Users.cold admin_groups (eraseUser users tgid) tgid nickname dir1 now
      | (.error e, dir1) => (.error e, users, dir1)
  | none => Users.cold admin_groups users tgid nickname dir now

/-- Users.update_invite (86-104), invite redemption: search the invite
tree by code; NotFound on zero matches, DuplicateEntry on several; on the
only match replace telegramid with the id and replace or delete
telegramnickname depending on whether a nickname was supplied. -/
def Users.update_invite (invite_code : String) (tgid : Int) (nickname : Option String)
    (dir : Directory) : Except LdapError Directory :=
  match dir.invites.filter (matchesInviteCode invite_code) with
  | [] => .error .accountNotFound
  | [r] =>
    .ok (modifyInvites dir r.dn (fun m =>
      let m1 := replaceAttr m "telegramid" (toString tgid)
      match nickname with
      | none => deleteAttr m1 "telegramnickname"
      | some n => replaceAttr m1 "telegramnickname" n))
  | _ => .error .duplicateEntry

/-- A roster entry (dataclass Person, 112-118). -/
structure Person where
  uid : String
  cn : String
  isadmin : Bool
  nickname : Option String
  tgid : Option Int
deriving DecidableEq, Repr

/-- Decimal value of one ASCII digit. -/
def digitVal (c : Char) : Option Nat :=
  if 48 ≤ c.toNat ∧ c.toNat ≤ 57 then some (c.toNat - 48) else none

/-- Decimal reading of a nonempty digit string. -/
def digitsToNat (cs : List Char) : Option Nat :=
  match cs with
  | [] => none
  | _ => cs.foldl (fun acc c =>
      match acc, digitVal c with
      | some n, some d => some (n * 10 + d)
      | _, _ => none) (some 0)

/-- Python int(s), modelled for the decimal forms the directory stores:
an optional minus sign followed by ASCII digits; anything else raises
ValueError. -/
def pyInt (s : String) : Except PyErr Int :=
  match s.data with
  | '-' :: rest =>
    match digitsToNat rest with
    | some n => .ok (-(n : Int))
    | none => .error .valueError
  | cs =>
    match digitsToNat cs with
    | some n => .ok (n : Int)
    | none => .error .valueError

/-- The Person built from one search result of People.__sync (155-161),
with the attribute accesses in source evaluation order. -/
def mkPerson (admin_groups : List String) (attributes : AttrMap) : Except PyErr Person := do
  let uid ← attrFirst attributes "uid"
  let cn ← attrFirst attributes "cn"
  let isadmin := is_admin admin_groups attributes
  let nickname ←
    match findAttr attributes "telegramnickname" with
    | some [] => Except.error PyErr.indexError
    | some (v :: _) => pure (some v)
    | none => pure none
  let tgid ←
    match findAttr attributes "telegramid" with
    | some [] => Except.error PyErr.indexError
    | some (v :: _) => (pyInt v).map some
    | none => pure none
  pure ⟨uid, cn, isadmin, nickname, tgid⟩

/-- The Roster Cache map, Python dict from lower-cased uid to Person. -/
abbrev PeopleMap := List (String × Person)

/-- Dict lookup people[uid]. -/
def lookupPerson (m : PeopleMap) (uid : String) : Option Person :=
  (m.find? (fun p => p.1 == uid)).map Prod.snd

/-- Dict assignment people[key] = p. -/
def insertPerson (m : PeopleMap) (key : String) (p : Person) : PeopleMap :=
  (key, p) :: m.filter (fun q => q.1 != key)

/-- The for loop of People.__sync (154-162): insert each search result
into the accumulating map keyed by lower-cased uid.  The fold starts from
the map passed in: the source never clears self.__people before the loop,
so the old entries stay unless overwritten.  (An exception mid-loop
propagates; the partially updated map it leaves behind is not modelled,
and no theorem below evaluates sync on ill-formed entries.) -/
def syncLoop (admin_groups : List String) (entries : List Entry) (acc : PeopleMap) :
    Except PyErr PeopleMap :=
  match entries with
  | [] => .ok acc
  | e :: rest =>
    match mkPerson admin_groups e.attrs with
    | .error err => .error err
    | .ok p => syncLoop admin_groups rest (insertPerson acc (strLower p.uid) p)

/-- The Roster Cache state: the map plus the global age clock. -/
structure PeopleState where
  people : PeopleMap
  last_update : Nat
deriving DecidableEq, Repr

/-- People.__sync (145-164): search the people tree for
(objectClass=weeeOpenPerson), run the insertion loop over the existing
map, and reset last_update to now. -/
def People.sync (admin_groups : List String) (st : PeopleState) (dir : Directory) (now : Nat) :
    Except PyErr PeopleState :=
  match syncLoop admin_groups (dir.people.filter isWeeeOpenPerson) st.people with
  | .error e => .error e
  | .ok m => .ok ⟨m, now⟩

/-- People.get (128-137): resync when the roster age exceeds 3600
seconds, then look the lower-cased uid up in the (possibly refreshed)
map; absence is a None result, not an error. -/
def People.get (admin_groups : List String) (st : PeopleState) (uid : String)
    (dir : Directory) (now : Nat) : Except PyErr (Option Person) × PeopleState :=
  if now - st.last_update > 3600 then
    match People.sync admin_groups st dir now with
    | .error e => (.error e, st)
    | .ok st1 => (.ok (lookupPerson st1.people (strLower uid)), st1)
  else (.ok (lookupPerson st.people (strLower uid)), st)

/-- Concrete directory entry for the alice account, well-formed for every
attribute the searches and the refresh read. -/
def aliceEntry : Entry :=
  ⟨"uid=alice,ou=people",
   [("objectClass", ["weeeOpenPerson"]), ("uid", ["alice"]), ("cn", ["Alice Smith"]),
    ("givenname", ["Alice"]), ("sn", ["Smith"]), ("telegramid", ["555"]),
    ("telegramnickname", ["alice"])]⟩

/-- Concrete cached profile for alice, stale at time 4000. -/
def staleAlice : User :=
  ⟨"uid=alice,ou=people", 555, "alice", "Alice Smith", "Alice", "Smith", false, some "alice", 0⟩

/-- Concrete roster person for bob, used by the roster theorems. -/
def bobPerson : Person := ⟨"bob", "Bob Brown", false, none, none⟩

/-- The roster person a sync builds from aliceEntry under an empty
allow-list. -/
def alicePersonR : Person := ⟨"alice", "Alice Smith", false, some "alice", some 555⟩

/-- Concrete pending-invite record with a code and no Telegram id. -/
def inviteNine : Entry := ⟨"cn=inv9,ou=invites", [("inviteCode", ["INV-9"])]⟩

/-- Concrete pending-invite record already carrying Telegram id 42. -/
def inviteBob : Entry := ⟨"cn=invbob,ou=invites", [("inviteCode", ["INV-7"]), ("telegramId", ["42"])]⟩

/-- Concrete directory entry for carol: handle set, no Telegram id. -/
def carolEntry : Entry :=
  ⟨"uid=carol,ou=people",
   [("objectClass", ["weeeOpenPerson"]), ("uid", ["carol"]), ("cn", ["Carol Cook"]),
    ("givenname", ["Carol"]), ("sn", ["Cook"]), ("telegramNickname", ["carol"])]⟩

/-- Concrete locked entry for carol: handle set, no Telegram id, locked. -/
def lockedCarol : Entry :=
  ⟨"uid=carol,ou=people",
   [("objectClass", ["weeeOpenPerson"]), ("uid", ["carol"]), ("telegramNickname", ["carol"]),
    ("nsaccountlock", ["true"])]⟩

/-- C9: for every set of group-membership attribute values and every
configured allow-list, admin derivation returns true iff at least one
membership value is in the allow-list, and it returns false when the
entry has no group-membership attribute.  is_admin is a pure Lean
function of its two arguments, so it performs no directory interaction
and reads no mutable state. -/
theorem is_admin_iff_membership (admin_groups : List String) (attributes : AttrMap) :
    (is_admin admin_groups attributes = true ↔
      ∃ vs, findAttr attributes "memberof" = some vs ∧ ∃ g ∈ vs, g ∈ admin_groups)
    ∧ (findAttr attributes "memberof" = none → is_admin admin_groups attributes = false) := by
  constructor
  · constructor
    · intro h
      unfold is_admin at h
      cases hm : findAttr attributes "memberof" with
      | none => rw [hm] at h; exact absurd h (by simp)
      | some groups =>
        rw [hm] at h
        refine ⟨groups, rfl, ?_⟩
        simpa [List.any_eq_true, List.contains, List.elem_iff] using h
    · rintro ⟨vs, hvs, g, hg, hga⟩
      unfold is_admin
      rw [hvs]
      simp only [List.any_eq_true]
      exact ⟨g, hg, by simpa [List.contains, List.elem_iff] using hga⟩
  · intro hm
    unfold is_admin
    rw [hm]

/-- Witness for C9 at a concrete allow-list and attribute map. -/
theorem is_admin_iff_membership_witness :
    is_admin ["cn=admin,ou=g", "cn=other,ou=g"] [("memberof", ["cn=x,ou=g", "cn=admin,ou=g"])] = true :=
  (is_admin_iff_membership ["cn=admin,ou=g", "cn=other,ou=g"]
      [("memberof", ["cn=x,ou=g", "cn=admin,ou=g"])]).1.mpr
    ⟨["cn=x,ou=g", "cn=admin,ou=g"], by decide, "cn=admin,ou=g", by decide, by decide⟩

theorem keyEq_iff {a b : String} : keyEq a b = true ↔ strLower a = strLower b := by
  unfold keyEq; exact beq_iff_eq

theorem keyEq_false_symm {a b : String} (h : keyEq a b = false) : keyEq b a = false := by
  cases hx : keyEq b a with
  | false => rfl
  | true =>
    have := keyEq_iff.mp hx
    have hy : keyEq a b = true := keyEq_iff.mpr this.symm
    rw [h] at hy
    exact absurd hy (by decide)

theorem find?_filter_keyEq_ne (m : AttrMap) (k k2 : String) (h : keyEq k2 k = false) :
    (m.filter (fun p => !keyEq p.1 k)).find? (fun p => keyEq p.1 k2)
      = m.find? (fun p => keyEq p.1 k2) := by
  induction m with
  | nil => rfl
  | cons q rest ih =>
    by_cases hq : keyEq q.1 k = true
    · have hq2 : keyEq q.1 k2 = false := by
        cases hx : keyEq q.1 k2 with
        | false => rfl
        | true =>
          have h1 := keyEq_iff.mp hq
          have h2 := keyEq_iff.mp hx
          have h3 : keyEq k2 k = true := keyEq_iff.mpr (h2.symm.trans h1)
          rw [h] at h3
          exact absurd h3 (by decide)
      simp [List.filter_cons, List.find?_cons, hq, hq2, ih]
    · have hq' : keyEq q.1 k = false := Bool.not_eq_true _ ▸ Bool.eq_false_iff.mpr (fun hx => hq hx)
      by_cases hq2 : keyEq q.1 k2 = true
      · simp [List.filter_cons, List.find?_cons, hq', hq2]
      · have hq2' : keyEq q.1 k2 = false := Bool.eq_false_iff.mpr (fun hx => hq2 hx)
        simp [List.filter_cons, List.find?_cons, hq', hq2', ih]

theorem findAttr_replaceAttr_self (m : AttrMap) (k v : String) :
    findAttr (replaceAttr m k v) k = some [v] := by
  have hk : keyEq k k = true := keyEq_iff.mpr rfl
  unfold findAttr replaceAttr
  simp [List.find?_cons, hk]

theorem findAttr_replaceAttr_ne (m : AttrMap) (k v k2 : String) (h : keyEq k2 k = false) :
    findAttr (replaceAttr m k v) k2 = findAttr m k2 := by
  have hk : keyEq k k2 = false := keyEq_false_symm h
  unfold findAttr replaceAttr
  simp only [List.find?_cons, hk]
  rw [find?_filter_keyEq_ne m k k2 h]

theorem findAttr_deleteAttr_self (m : AttrMap) (k : String) :
    findAttr (deleteAttr m k) k = none := by
  unfold findAttr deleteAttr
  rw [Option.map_eq_none', List.find?_eq_none]
  intro p hp
  rw [List.mem_filter] at hp
  have h2 := hp.2
  simp only [Bool.not_eq_true'] at h2
  intro hx
  rw [h2] at hx
  exact absurd hx (by decide)

theorem findAttr_deleteAttr_ne (m : AttrMap) (k k2 : String) (h : keyEq k2 k = false) :
    findAttr (deleteAttr m k) k2 = findAttr m k2 := by
  unfold findAttr deleteAttr
  rw [find?_filter_keyEq_ne m k k2 h]

theorem lookupUser_eraseUser (m : UsersMap) (tgid : Int) :
    lookupUser (eraseUser m tgid) tgid = none := by
  unfold lookupUser eraseUser
  rw [Option.map_eq_none', List.find?_eq_none]
  intro p hp
  rw [List.mem_filter] at hp
  have h2 := hp.2
  simp only [bne_iff_ne, ne_eq] at h2
  intro hx
  exact h2 (eq_of_beq hx)

/-- C6: a cache hit younger than the TTL returns the cached profile
unchanged, with the cache map and the directory untouched.  The directory
argument is arbitrary here and returned as passed, so the result is
independent of the directory state: no session is opened, no directory
call is made and no nickname reconciliation happens (all of those live
behind the staleness branch in the source). -/
theorem get_fresh_hit_frame (admin_groups : List String) (users : UsersMap) (tgid : Int)
    (nickname : Option String) (dir : Directory) (now : Nat) (u : User)
    (hc : lookupUser users tgid = some u)
    (hf : u.need_update now = false) :
    Users.get admin_groups users tgid nickname dir now = (.ok u, users, dir) := by
  unfold Users.get
  rw [hc]
  simp only [hf, Bool.not_false, if_true]

/-- Witness for C6: a concrete cached user below the TTL. -/
theorem get_fresh_hit_frame_witness :
    Users.get [] [(555, ⟨"uid=alice,ou=people", 555, "alice", "Alice Smith", "Alice", "Smith", false, some "alice", 1000⟩)]
        555 (some "alice") ⟨[], []⟩ 2000
      = (.ok ⟨"uid=alice,ou=people", 555, "alice", "Alice Smith", "Alice", "Smith", false, some "alice", 1000⟩,
         [(555, ⟨"uid=alice,ou=people", 555, "alice", "Alice Smith", "Alice", "Smith", false, some "alice", 1000⟩)],
         ⟨[], []⟩) :=
  get_fresh_hit_frame [] _ 555 (some "alice") ⟨[], []⟩ 2000 _ (by decide) (by decide)

/-- C5: when a cache miss resolves, through the id search, to a directory
entry carrying nsaccountlock, get fails AccountLocked and the cache and
directory come back unchanged: no entry for the id is retained, so every
subsequent identical call takes the same path and fails AccountLocked
again instead of hitting a cached entry. -/
theorem get_locked_never_cached (admin_groups : List String) (users : UsersMap)
    (tgid : Int) (nickname : Option String) (dir : Directory) (now : Nat) (e : Entry)
    (hmiss : lookupUser users tgid = none)
    (hone : dir.people.filter (matchesTgid tgid) = [e])
    (hlock : hasAttr e.attrs "nsaccountlock" = true) :
    Users.get admin_groups users tgid nickname dir now = (.error .accountLocked, users, dir) ∧
    lookupUser (Users.get admin_groups users tgid nickname dir now).2.1 tgid = none := by
  have hsbt : search_by_tgid tgid dir = .ok (e.attrs, e.dn) := by
    unfold search_by_tgid
    rw [hone]
  have hsearch : User.search tgid nickname admin_groups dir now = (.error .accountLocked, dir) := by
    unfold User.search
    rw [hsbt]
    simp [resolveEntry, hlock]
  have hmain : Users.get admin_groups users tgid nickname dir now = (.error .accountLocked, users, dir) := by
    unfold Users.get
    rw [hmiss]
    unfold Users.cold
    rw [hsearch]
  exact ⟨hmain, by rw [hmain]; exact hmiss⟩

/-- Witness for C5: one locked entry holding Telegram id 7. -/
theorem get_locked_never_cached_witness :
    Users.get [] [] 7 (some "bob")
        ⟨[⟨"uid=bob,ou=people", [("objectClass", ["weeeOpenPerson"]), ("uid", ["bob"]),
           ("telegramId", ["7"]), ("nsaccountlock", ["true"])]⟩], []⟩ 0
      = (.error .accountLocked, [],
         ⟨[⟨"uid=bob,ou=people", [("objectClass", ["weeeOpenPerson"]), ("uid", ["bob"]),
           ("telegramId", ["7"]), ("nsaccountlock", ["true"])]⟩], []⟩) :=
  (get_locked_never_cached [] [] 7 (some "bob") _ 0
    ⟨"uid=bob,ou=people", [("objectClass", ["weeeOpenPerson"]), ("uid", ["bob"]),
      ("telegramId", ["7"]), ("nsaccountlock", ["true"])]⟩
    (by decide) (by decide) (by decide)).1

/-- C3: a stale cache hit whose in-place refresh fails with
AccountNotFound, AccountLocked or DuplicateEntry first evicts the cached
entry and only then falls through to cold resolution: the evicted map no
longer holds the id, the whole call behaves as cold resolution over the
evicted map, and whenever that cold resolution propagates a failure to
the caller the final cache state is exactly the evicted one. -/
theorem get_stale_refresh_error_evicts (admin_groups : List String) (users : UsersMap)
    (tgid : Int) (nickname : Option String) (dir dir1 : Directory) (now : Nat)
    (u : User) (err : LdapError)
    (hc : lookupUser users tgid = some u)
    (hstale : u.need_update now = true)
    (hupd : u.update dir admin_groups true nickname now = (.error err, dir1))
    (hev : err = .accountNotFound ∨ err = .accountLocked ∨ err = .duplicateEntry) :
    Users.get admin_groups users tgid nickname dir now
      = Users.cold admin_groups (eraseUser users tgid) tgid nickname dir1 now ∧
    lookupUser (eraseUser users tgid) tgid = none ∧
    (∀ e2 st2 dir2,
      Users.cold admin_groups (eraseUser users tgid) tgid nickname dir1 now = (.error e2, st2, dir2) →
      st2 = eraseUser users tgid) := by
  refine ⟨?_, lookupUser_eraseUser users tgid, ?_⟩
  · unfold Users.get
    rw [hc]
    simp only [hstale, Bool.not_true, if_neg (by decide : ¬ (false = true))]
    rw [hupd]
    rcases hev with h | h | h <;> rw [h]
  · intro e2 st2 dir2 hcold
    unfold Users.cold at hcold
    cases hs : User.search tgid nickname admin_groups dir1 now with
    | mk r d =>
      rw [hs] at hcold
      cases r with
      | ok v => exact Except.noConfusion (congrArg (fun t => t.1) hcold)
      | error e => exact (congrArg (fun t => t.2.1) hcold).symm

/-- Witness for C3: alice is cached and stale and her entry exists, so
the refresh aborts with DuplicateEntryError (the dict length misread);
the whole call behaves as cold resolution over the map with alice
evicted. -/
theorem get_stale_refresh_error_evicts_witness :
    Users.get [] [(555, staleAlice)] 555 (some "alice") ⟨[aliceEntry], []⟩ 4000
      = Users.cold [] (eraseUser [(555, staleAlice)] 555) 555 (some "alice") ⟨[aliceEntry], []⟩ 4000 :=
  (get_stale_refresh_error_evicts [] [(555, staleAlice)] 555 (some "alice")
    ⟨[aliceEntry], []⟩ ⟨[aliceEntry], []⟩ 4000
    staleAlice .duplicateEntry (by decide) (by decide) (by decide) (Or.inr (Or.inr rfl))).1

/-- C2 (code bug): the in-place staleness refresh can never return a
refreshed profile on any cache and directory state whatsoever.  The
method misreads the read_s contract: it applies len() and a list-style
pop() to the attribute dict the call returns, so every path through it
raises - AccountNotFoundError, DuplicateEntryError, TypeError or the
gateway NO_SUCH_OBJECT - and the profile update, handle reconciliation
and fresh timestamp the spec describes never execute in place. -/
theorem update_never_ok (u : User) (dir : Directory) (admin_groups : List String)
    (also_nickname : Bool) (nickname : Option String) (now : Nat) :
    (User.update u dir admin_groups also_nickname nickname now).1.isOk = false := by
  unfold User.update
  cases hr : read_s dir u.dn updateReadAttrs with
  | error e => rfl
  | ok result =>
    by_cases h0 : (result.length == 0) = true <;>
      by_cases h1 : result.length > 1 <;>
        simp [h0, h1, Except.isOk, Except.toBool]

/-- The refresh at the concrete failing input of C2, and what the caller
sees instead: the unique, unlocked alice entry carries six of the
requested attributes, so len() of the attribute dict makes the refresh
abort with DuplicateEntryError; Users.get catches it, evicts alice and
silently recovers through cold resolution, returning a profile rebuilt by
the full search with a fresh timestamp - not the in-place, search-free
refresh the claim describes. -/
theorem update_refresh_aborts_concrete :
    User.update staleAlice ⟨[aliceEntry], []⟩ [] true (some "alice") 4000
      = (.error .duplicateEntry, ⟨[aliceEntry], []⟩) ∧
    Users.get [] [(555, staleAlice)] 555 (some "alice") ⟨[aliceEntry], []⟩ 4000
      = (.ok ⟨"uid=alice,ou=people", 555, "alice", "Alice Smith", "Alice", "Smith", false, some "alice", 4000⟩,
         [(555, ⟨"uid=alice,ou=people", 555, "alice", "Alice Smith", "Alice", "Smith", false, some "alice", 4000⟩)],
         ⟨[aliceEntry], []⟩) :=
  ⟨by decide, by decide⟩

theorem find?_filter_bne (m : PeopleMap) (k key : String) (h : k ≠ key) :
    (m.filter (fun q => q.1 != k)).find? (fun q => q.1 == key)
      = m.find? (fun q => q.1 == key) := by
  induction m with
  | nil => rfl
  | cons q rest ih =>
    by_cases hq : q.1 = k
    · have hq1 : (q.1 != k) = false := by simp [hq]
      have hq2 : (q.1 == key) = false := by
        refine beq_eq_false_iff_ne.mpr ?_
        rw [hq]; exact h
      simp [List.filter_cons, List.find?_cons, hq1, hq2, ih]
    · have hq1 : (q.1 != k) = true := by simp [hq]
      by_cases hq2 : q.1 = key
      · have hq2' : (q.1 == key) = true := beq_iff_eq.mpr hq2
        simp [List.filter_cons, List.find?_cons, hq1, hq2']
      · have hq2' : (q.1 == key) = false := beq_eq_false_iff_ne.mpr hq2
        simp [List.filter_cons, List.find?_cons, hq1, hq2', ih]

theorem lookupPerson_insertPerson_ne (m : PeopleMap) (k key : String) (p : Person)
    (h : k ≠ key) :
    lookupPerson (insertPerson m k p) key = lookupPerson m key := by
  have hk : (k == key) = false := beq_eq_false_iff_ne.mpr h
  unfold lookupPerson insertPerson
  simp only [List.find?_cons, hk]
  rw [find?_filter_bne m k key h]

theorem syncLoop_lookup_absent (admin_groups : List String) (key : String) :
    ∀ (entries : List Entry) (acc acc2 : PeopleMap),
    syncLoop admin_groups entries acc = .ok acc2 →
    (∀ e ∈ entries, ∀ p, mkPerson admin_groups e.attrs = .ok p → strLower p.uid ≠ key) →
    lookupPerson acc2 key = lookupPerson acc key := by
  intro entries
  induction entries with
  | nil =>
    intro acc acc2 hrun habs
    unfold syncLoop at hrun
    injection hrun with h
    rw [h]
  | cons e rest ih =>
    intro acc acc2 hrun habs
    unfold syncLoop at hrun
    cases hp : mkPerson admin_groups e.attrs with
    | error err => rw [hp] at hrun; exact Except.noConfusion hrun
    | ok p =>
      rw [hp] at hrun
      have h1 := ih (insertPerson acc (strLower p.uid) p) acc2 hrun
        (fun e2 he2 => habs e2 (List.mem_cons_of_mem _ he2))
      rw [h1, lookupPerson_insertPerson_ne _ _ _ _ (habs e (List.mem_cons_self _ _) p hp)]

/-- C1 counterexample: bob is in the old roster snapshot, the roster age
4000 exceeds the 3600 TTL, and the directory search result of the resync
is empty, so the claim says get must return absent for bob right after
the resync; the model of the source instead still returns the old bob
entry (and keeps it in the new map), because the sync inserts into the
old map without clearing it. -/
theorem people_get_returns_removed_person :
    (4000 - 0 > 3600) ∧
    ((⟨[], []⟩ : Directory).people.filter isWeeeOpenPerson = []) ∧
    People.get [] ⟨[("bob", bobPerson)], 0⟩ "bob" ⟨[], []⟩ 4000
      = (.ok (some bobPerson), ⟨[("bob", bobPerson)], 4000⟩) :=
  ⟨by decide, rfl, by decide⟩

/-- C1 amended: when the Roster Cache get finds the roster age above the
TTL, the resync merges the directory search result into the existing
roster keyed by lower-cased account name and resets the age clock; an
account name held in the old snapshot whose key is absent from the search
result survives the merge, and get returns its old entry rather than
absent.  (Entries whose key does appear in the search result are
overwritten with the fresh data.) -/
theorem people_get_stale_merges (admin_groups : List String) (st : PeopleState)
    (uid : String) (dir : Directory) (now : Nat) (st1 : PeopleState)
    (hstale : now - st.last_update > 3600)
    (hsync : People.sync admin_groups st dir now = .ok st1)
    (habs : ∀ e ∈ dir.people.filter isWeeeOpenPerson, ∀ p,
      mkPerson admin_groups e.attrs = .ok p → strLower p.uid ≠ strLower uid) :
    People.get admin_groups st uid dir now
      = (.ok (lookupPerson st.people (strLower uid)), st1) ∧
    st1.last_update = now := by
  have hup : lookupPerson st1.people (strLower uid) = lookupPerson st.people (strLower uid)
      ∧ st1.last_update = now := by
    unfold People.sync at hsync
    cases hl : syncLoop admin_groups (dir.people.filter isWeeeOpenPerson) st.people with
    | error e => rw [hl] at hsync; exact Except.noConfusion hsync
    | ok m =>
      rw [hl] at hsync
      injection hsync with h
      constructor
      · rw [← h]
        exact syncLoop_lookup_absent admin_groups (strLower uid) _ _ _ hl habs
      · rw [← h]
  refine ⟨?_, hup.2⟩
  unfold People.get
  rw [if_pos hstale, hsync]
  simp [hup.1]

/-- Witness for C1: bob survives a stale resync whose search result holds
only alice. -/
theorem people_get_stale_merges_witness :
    People.get [] ⟨[("bob", bobPerson)], 0⟩ "bob" ⟨[aliceEntry], []⟩ 4000
      = (.ok (some bobPerson), ⟨[("alice", alicePersonR), ("bob", bobPerson)], 4000⟩) :=
  (people_get_stale_merges [] ⟨[("bob", bobPerson)], 0⟩ "bob" ⟨[aliceEntry], []⟩ 4000
    ⟨[("alice", alicePersonR), ("bob", bobPerson)], 4000⟩
    (by decide) (by decide)
    (by
      intro e he p hp
      have hf : List.filter isWeeeOpenPerson ([aliceEntry]) = [aliceEntry] := rfl
      rw [hf, List.mem_singleton] at he
      subst he
      have hpa : mkPerson [] aliceEntry.attrs = .ok alicePersonR := by decide
      rw [hpa] at hp
      injection hp with h
      rw [← h]
      decide)).1

/-- C8: invite redemption fails NotFound when zero invite records match
the code, DuplicateEntry when more than one matches, and on exactly one
match writes the Telegram id into the record and replaces the nickname
attribute when a handle was supplied or deletes it when none was. -/
theorem update_invite_cases (invite_code : String) (tgid : Int) (nickname : Option String)
    (dir : Directory) :
    (dir.invites.filter (matchesInviteCode invite_code) = [] →
      Users.update_invite invite_code tgid nickname dir = .error .accountNotFound) ∧
    (∀ r1 r2 rest, dir.invites.filter (matchesInviteCode invite_code) = r1 :: r2 :: rest →
      Users.update_invite invite_code tgid nickname dir = .error .duplicateEntry) ∧
    (∀ r, dir.invites.filter (matchesInviteCode invite_code) = [r] →
      ∃ dir1, Users.update_invite invite_code tgid nickname dir = .ok dir1 ∧
        (∃ e1 ∈ dir1.invites, e1.dn = r.dn) ∧
        (∀ e1 ∈ dir1.invites, e1.dn = r.dn →
          findAttr e1.attrs "telegramid" = some [toString tgid] ∧
          findAttr e1.attrs "telegramnickname" = nickname.map (fun n => [n]))) := by
  refine ⟨?_, ?_, ?_⟩
  · intro h
    unfold Users.update_invite
    rw [h]
  · intro r1 r2 rest h
    unfold Users.update_invite
    rw [h]
  · intro r hr
    have hre : Users.update_invite invite_code tgid nickname dir
        = .ok (modifyInvites dir r.dn (fun m =>
            let m1 := replaceAttr m "telegramid" (toString tgid)
            match nickname with
            | none => deleteAttr m1 "telegramnickname"
            | some n => replaceAttr m1 "telegramnickname" n)) := by
      unfold Users.update_invite
      rw [hr]
    refine ⟨_, hre, ?_, ?_⟩
    · have hrmem : r ∈ dir.invites := by
        refine List.mem_of_mem_filter (p := matchesInviteCode invite_code) ?_
        rw [hr]
        exact List.mem_singleton.mpr rfl
      simp only [modifyInvites]
      refine ⟨_, List.mem_map_of_mem _ hrmem, ?_⟩
      simp
    · intro e1 he1 hdn
      simp only [modifyInvites] at he1
      rw [List.mem_map] at he1
      obtain ⟨e0, he0, heq⟩ := he1
      by_cases hd : (e0.dn == r.dn) = true
      · rw [if_pos hd] at heq
        cases nickname with
        | none =>
          constructor
          · rw [← heq]
            show findAttr (deleteAttr (replaceAttr e0.attrs "telegramid" (toString tgid))
              "telegramnickname") "telegramid" = some [toString tgid]
            rw [findAttr_deleteAttr_ne _ _ _ (by decide), findAttr_replaceAttr_self]
          · rw [← heq]
            show findAttr (deleteAttr (replaceAttr e0.attrs "telegramid" (toString tgid))
              "telegramnickname") "telegramnickname" = Option.map (fun n => [n]) none
            rw [findAttr_deleteAttr_self]
            rfl
        | some n =>
          constructor
          · rw [← heq]
            show findAttr (replaceAttr (replaceAttr e0.attrs "telegramid" (toString tgid))
              "telegramnickname" n) "telegramid" = some [toString tgid]
            rw [findAttr_replaceAttr_ne _ _ _ _ (by decide), findAttr_replaceAttr_self]
          · rw [← heq]
            show findAttr (replaceAttr (replaceAttr e0.attrs "telegramid" (toString tgid))
              "telegramnickname" n) "telegramnickname" = Option.map (fun n => [n]) (some n)
            rw [findAttr_replaceAttr_self]
            rfl
      · rw [if_neg hd] at heq
        rw [← heq] at hdn
        exact absurd hdn (by simpa using hd)

/-- Witness for C8: one invite record with code INV-9; redeeming it for
id 42 with handle carol writes both attributes. -/
theorem update_invite_cases_witness :
    ∃ dir1, Users.update_invite "INV-9" 42 (some "carol") ⟨[], [inviteNine]⟩ = .ok dir1 ∧
      (∃ e1 ∈ dir1.invites, e1.dn = inviteNine.dn) ∧
      (∀ e1 ∈ dir1.invites, e1.dn = inviteNine.dn →
        findAttr e1.attrs "telegramid" = some [toString (42 : Int)] ∧
        findAttr e1.attrs "telegramnickname" = (some "carol").map (fun n => [n])) :=
  (update_invite_cases "INV-9" 42 (some "carol") ⟨[], [inviteNine]⟩).2.2 inviteNine rfl

theorem invites_filter_eq (dir : Directory) (tgid : Int)
    (hcode : ∀ e ∈ dir.invites, hasAttr e.attrs "inviteCode" = true) :
    dir.invites.filter (matchesInviteTgid tgid)
      = dir.invites.filter (fun e => attrHasValue e.attrs "telegramId" (toString tgid)) := by
  apply List.filter_congr
  intro e he
  unfold matchesInviteTgid
  rw [hcode e he, Bool.true_and]

/-- C7: when the id search returns zero entries, resolution searches the
pending-invite records whose external id equals the Telegram id (under
the data-model invariant that every invite record carries an inviteCode
attribute, which makes the code filter coincide with that set): exactly
one match fails AccountNotCompleted carrying that record its inviteCode
value, several matches fail DuplicateEntry, and zero matches fail
AccountNotFound when no handle was supplied (a supplied handle instead
diverts into the handle fallback). -/
theorem search_zero_id_invite_cases (tgid : Int) (tgnick : Option String)
    (admin_groups : List String) (dir : Directory) (now : Nat)
    (hzero : dir.people.filter (matchesTgid tgid) = [])
    (hcode : ∀ e ∈ dir.invites, hasAttr e.attrs "inviteCode" = true) :
    (∀ r c cs, dir.invites.filter (fun e => attrHasValue e.attrs "telegramId" (toString tgid)) = [r] →
      findAttr r.attrs "inviteCode" = some (c :: cs) →
      User.search tgid tgnick admin_groups dir now = (.error (.accountNotCompleted c), dir)) ∧
    (∀ r1 r2 rest, dir.invites.filter (fun e => attrHasValue e.attrs "telegramId" (toString tgid)) = r1 :: r2 :: rest →
      User.search tgid tgnick admin_groups dir now = (.error .duplicateEntry, dir)) ∧
    (dir.invites.filter (fun e => attrHasValue e.attrs "telegramId" (toString tgid)) = [] →
      tgnick = none →
      User.search tgid tgnick admin_groups dir now = (.error .accountNotFound, dir)) := by
  have hfe := invites_filter_eq dir tgid hcode
  refine ⟨?_, ?_, ?_⟩
  · intro r c cs hr hfc
    have hinv : get_invite_from_tgid tgid dir = .ok (some c) := by
      unfold get_invite_from_tgid
      rw [hfe, hr]
      simp [attrFirst, hfc]
    have hsbt : search_by_tgid tgid dir = .error (.accountNotCompleted c) := by
      unfold search_by_tgid
      rw [hzero]
      simp [hinv]
    unfold User.search
    rw [hsbt]
  · intro r1 r2 rest hr
    have hinv : get_invite_from_tgid tgid dir = .error .duplicateEntry := by
      unfold get_invite_from_tgid
      rw [hfe, hr]
    have hsbt : search_by_tgid tgid dir = .error .duplicateEntry := by
      unfold search_by_tgid
      rw [hzero]
      simp [hinv]
    unfold User.search
    rw [hsbt]
  · intro hr hn
    subst hn
    have hinv : get_invite_from_tgid tgid dir = .ok none := by
      unfold get_invite_from_tgid
      rw [hfe, hr]
    have hsbt : search_by_tgid tgid dir = .error .accountNotFound := by
      unfold search_by_tgid
      rw [hzero]
      simp [hinv]
    unfold User.search
    rw [hsbt]

/-- Witness for C7: no directory entry holds id 42, one pending invite
does, so the search fails AccountNotCompleted with its code INV-7. -/
theorem search_zero_id_invite_cases_witness :
    User.search 42 (some "bob") [] ⟨[], [inviteBob]⟩ 0
      = (.error (.accountNotCompleted "INV-7"), ⟨[], [inviteBob]⟩) :=
  (search_zero_id_invite_cases 42 (some "bob") [] ⟨[], [inviteBob]⟩ 0
    rfl (by decide)).1 inviteBob "INV-7" [] rfl rfl

theorem matchesTgid_update_entry (e : Entry) (tgid : Int)
    (hw : isWeeeOpenPerson e = true) :
    matchesTgid tgid { e with attrs := replaceAttr e.attrs "telegramId" (toString tgid) } = true := by
  have h1 : isWeeeOpenPerson { e with attrs := replaceAttr e.attrs "telegramId" (toString tgid) } = true := by
    unfold isWeeeOpenPerson attrHasValue at hw ⊢
    rw [findAttr_replaceAttr_ne _ _ _ _ (by decide)]
    exact hw
  have h2 : attrHasValue (replaceAttr e.attrs "telegramId" (toString tgid))
      "telegramId" (toString tgid) = true := by
    unfold attrHasValue
    rw [findAttr_replaceAttr_self]
    simp [List.contains]
  unfold matchesTgid
  rw [Bool.and_eq_true]
  exact ⟨h1, h2⟩

theorem filter_tgid_after_update (nick : String) (tgid : Int) (e : Entry) :
    ∀ l : List Entry,
    (l.map Entry.dn).Nodup →
    l.filter (matchesNickNoId nick) = [e] →
    l.filter (matchesTgid tgid) = [] →
    (l.map (fun x => if x.dn == e.dn then
        { x with attrs := replaceAttr x.attrs "telegramId" (toString tgid) } else x)).filter
        (matchesTgid tgid)
      = [{ e with attrs := replaceAttr e.attrs "telegramId" (toString tgid) }] := by
  intro l
  induction l with
  | nil => intro _ hone _; exact absurd hone (by simp)
  | cons x rest ih =>
    intro hnd hone hzero
    rw [List.map_cons, List.nodup_cons] at hnd
    have hzr : rest.filter (matchesTgid tgid) = [] := by
      rw [List.filter_cons] at hzero
      by_cases hx : matchesTgid tgid x = true
      · rw [if_pos hx] at hzero; exact absurd hzero (by simp)
      · rwa [if_neg hx] at hzero
    have hzrall := List.filter_eq_nil_iff.mp hzr
    have hzx : ¬matchesTgid tgid x = true := by
      rw [List.filter_cons] at hzero
      by_cases hx : matchesTgid tgid x = true
      · rw [if_pos hx] at hzero; exact absurd hzero (by simp)
      · exact hx
    by_cases hx : matchesNickNoId nick x = true
    · rw [List.filter_cons_of_pos hx] at hone
      have hxe : x = e := (List.cons.injEq _ _ _ _ |>.mp hone).1
      have hrest : rest.filter (matchesNickNoId nick) = [] :=
        (List.cons.injEq _ _ _ _ |>.mp hone).2
      subst hxe
      have hw : isWeeeOpenPerson x = true := by
        unfold matchesNickNoId at hx
        rw [Bool.and_eq_true, Bool.and_eq_true] at hx
        exact hx.1.1
      have hmt := matchesTgid_update_entry x tgid hw
      have htail : (rest.map (fun y => if y.dn == x.dn then
          { y with attrs := replaceAttr y.attrs "telegramId" (toString tgid) } else y)).filter
          (matchesTgid tgid) = [] := by
        rw [List.filter_eq_nil_iff]
        intro y hy
        rw [List.mem_map] at hy
        obtain ⟨x0, hx0, hfx0⟩ := hy
        have hdn0 : x0.dn ≠ x.dn := by
          intro hcontra
          exact hnd.1 (hcontra ▸ List.mem_map_of_mem Entry.dn hx0)
        rw [if_neg (by simp [beq_eq_false_iff_ne.mpr hdn0])] at hfx0
        rw [← hfx0]
        exact hzrall x0 hx0
      rw [List.map_cons, if_pos (beq_self_eq_true x.dn), List.filter_cons_of_pos hmt, htail]
    · rw [List.filter_cons_of_neg hx] at hone
      have hemem : e ∈ rest := by
        have hm : e ∈ rest.filter (matchesNickNoId nick) := by
          rw [hone]; exact List.mem_singleton.mpr rfl
        exact List.mem_of_mem_filter hm
      have hdnx : x.dn ≠ e.dn := by
        intro hcontra
        exact hnd.1 (by rw [hcontra]; exact List.mem_map_of_mem Entry.dn hemem)
      rw [List.map_cons, if_neg (by simp [beq_eq_false_iff_ne.mpr hdnx]),
        List.filter_cons_of_neg hzx]
      exact ih hnd.2 hone hzr

theorem search_by_tgid_notfound (tgid : Int) (dir : Directory)
    (hzero : dir.people.filter (matchesTgid tgid) = [])
    (hnoinv : dir.invites.filter (matchesInviteTgid tgid) = []) :
    search_by_tgid tgid dir = .error .accountNotFound := by
  have hinv : get_invite_from_tgid tgid dir = .ok none := by
    unfold get_invite_from_tgid
    rw [hnoinv]
  unfold search_by_tgid
  rw [hzero]
  simp [hinv]

/-- C4: with zero id matches, no pending invite for the id and a handle
supplied, resolution searches for entries matching the handle and lacking
the external-id attribute; zero matches fail NotFound and several fail
DuplicateEntry, while on exactly one match the Telegram id is written
into that entry, the id search re-run on the written directory finds
exactly that entry, and resolution proceeds from the shared tail
(resolveEntry: lock check, admin derivation, handle reconciliation,
profile assembly) on it. -/
theorem search_handle_fallback_cases (tgid : Int) (nick : String)
    (admin_groups : List String) (dir : Directory) (now : Nat)
    (hzero : dir.people.filter (matchesTgid tgid) = [])
    (hnoinv : dir.invites.filter (matchesInviteTgid tgid) = [])
    (hdn : (dir.people.map Entry.dn).Nodup) :
    (dir.people.filter (matchesNickNoId nick) = [] →
      User.search tgid (some nick) admin_groups dir now = (.error .accountNotFound, dir)) ∧
    (∀ e1 e2 rest, dir.people.filter (matchesNickNoId nick) = e1 :: e2 :: rest →
      User.search tgid (some nick) admin_groups dir now = (.error .duplicateEntry, dir)) ∧
    (∀ e, dir.people.filter (matchesNickNoId nick) = [e] →
      (update_id dir e.dn tgid).people.filter (matchesTgid tgid)
          = [{ e with attrs := replaceAttr e.attrs "telegramId" (toString tgid) }] ∧
      User.search tgid (some nick) admin_groups dir now
          = resolveEntry tgid (some nick) admin_groups
              (replaceAttr e.attrs "telegramId" (toString tgid)) e.dn
              (update_id dir e.dn tgid) now) := by
  have hsbt := search_by_tgid_notfound tgid dir hzero hnoinv
  refine ⟨?_, ?_, ?_⟩
  · intro h
    have hsbn : search_by_nickname nick tgid dir = (.error .accountNotFound, dir) := by
      unfold search_by_nickname; rw [h]
    unfold User.search
    rw [hsbt]
    simp [hsbn]
  · intro e1 e2 rest h
    have hsbn : search_by_nickname nick tgid dir = (.error .duplicateEntry, dir) := by
      unfold search_by_nickname; rw [h]
    unfold User.search
    rw [hsbt]
    simp [hsbn]
  · intro e he
    have hfilter : (update_id dir e.dn tgid).people.filter (matchesTgid tgid)
        = [{ e with attrs := replaceAttr e.attrs "telegramId" (toString tgid) }] := by
      unfold update_id modifyPeople
      exact filter_tgid_after_update nick tgid e dir.people hdn he hzero
    refine ⟨hfilter, ?_⟩
    have hsbt2 : search_by_tgid tgid (update_id dir e.dn tgid)
        = .ok (replaceAttr e.attrs "telegramId" (toString tgid), e.dn) := by
      unfold search_by_tgid
      rw [hfilter]
    have hsbn : search_by_nickname nick tgid dir
        = (.ok (replaceAttr e.attrs "telegramId" (toString tgid), e.dn),
           update_id dir e.dn tgid) := by
      unfold search_by_nickname
      rw [he]
      simp [hsbt2]
    unfold User.search
    rw [hsbt]
    simp [hsbn]

/-- Witness for C4: carol has the handle and no Telegram id; the fallback
writes id 999 into her entry, the re-run id search finds exactly the
written entry, and resolution proceeds on it. -/
theorem search_handle_fallback_cases_witness :
    (update_id ⟨[carolEntry], []⟩ carolEntry.dn 999).people.filter (matchesTgid 999)
      = [{ carolEntry with attrs := replaceAttr carolEntry.attrs "telegramId" (toString (999 : Int)) }] ∧
    User.search 999 (some "carol") [] ⟨[carolEntry], []⟩ 0
      = resolveEntry 999 (some "carol") []
          (replaceAttr carolEntry.attrs "telegramId" (toString (999 : Int))) carolEntry.dn
          (update_id ⟨[carolEntry], []⟩ carolEntry.dn 999) 0 :=
  (search_handle_fallback_cases 999 "carol" [] ⟨[carolEntry], []⟩ 0 rfl rfl
    (by simp)).2.2 carolEntry rfl

/-- C10: in the handle-fallback path the external-id write precedes the
lock check.  On a cache miss with zero id matches, no pending invite and
exactly one handle match that carries nsaccountlock, get fails
AccountLocked and caches nothing, yet the directory it returns is the
mutated one: every people entry at the matched dn now carries the caller
Telegram id, so the directory is modified on this error path. -/
theorem get_locked_fallback_mutates_directory (admin_groups : List String)
    (users : UsersMap) (tgid : Int) (nick : String) (dir : Directory) (now : Nat) (e : Entry)
    (hmiss : lookupUser users tgid = none)
    (hzero : dir.people.filter (matchesTgid tgid) = [])
    (hnoinv : dir.invites.filter (matchesInviteTgid tgid) = [])
    (hdn : (dir.people.map Entry.dn).Nodup)
    (hone : dir.people.filter (matchesNickNoId nick) = [e])
    (hlock : hasAttr e.attrs "nsaccountlock" = true) :
    Users.get admin_groups users tgid (some nick) dir now
      = (.error .accountLocked, users, update_id dir e.dn tgid) ∧
    (∀ x ∈ (update_id dir e.dn tgid).people, x.dn = e.dn →
      findAttr x.attrs "telegramId" = some [toString tgid]) := by
  have hsbt := search_by_tgid_notfound tgid dir hzero hnoinv
  have hfilter : (update_id dir e.dn tgid).people.filter (matchesTgid tgid)
      = [{ e with attrs := replaceAttr e.attrs "telegramId" (toString tgid) }] := by
    unfold update_id modifyPeople
    exact filter_tgid_after_update nick tgid e dir.people hdn hone hzero
  have hsbt2 : search_by_tgid tgid (update_id dir e.dn tgid)
      = .ok (replaceAttr e.attrs "telegramId" (toString tgid), e.dn) := by
    unfold search_by_tgid
    rw [hfilter]
  have hsbn : search_by_nickname nick tgid dir
      = (.ok (replaceAttr e.attrs "telegramId" (toString tgid), e.dn),
         update_id dir e.dn tgid) := by
    unfold search_by_nickname
    rw [hone]
    simp [hsbt2]
  have hlock2 : hasAttr (replaceAttr e.attrs "telegramId" (toString tgid)) "nsaccountlock" = true := by
    unfold hasAttr at hlock ⊢
    rw [findAttr_replaceAttr_ne _ _ _ _ (by decide)]
    exact hlock
  have hsearch : User.search tgid (some nick) admin_groups dir now
      = (.error .accountLocked, update_id dir e.dn tgid) := by
    unfold User.search
    rw [hsbt]
    simp [hsbn, resolveEntry, hlock2]
  constructor
  · unfold Users.get
    rw [hmiss]
    unfold Users.cold
    rw [hsearch]
  · intro x hx hxdn
    unfold update_id modifyPeople at hx
    rw [List.mem_map] at hx
    obtain ⟨x0, hx0, heq⟩ := hx
    by_cases hd : (x0.dn == e.dn) = true
    · rw [if_pos hd] at heq
      rw [← heq]
      exact findAttr_replaceAttr_self _ _ _
    · rw [if_neg hd] at heq
      rw [← heq] at hxdn
      exact absurd hxdn (by simpa using hd)

/-- Witness for C10: carol is locked, has the handle and no Telegram id;
get fails AccountLocked, but the returned directory has id 999 written
into her entry. -/
theorem get_locked_fallback_mutates_directory_witness :
    Users.get [] [] 999 (some "carol") ⟨[lockedCarol], []⟩ 0
      = (.error .accountLocked, [], update_id ⟨[lockedCarol], []⟩ lockedCarol.dn 999) :=
  (get_locked_fallback_mutates_directory [] [] 999 "carol" ⟨[lockedCarol], []⟩ 0 lockedCarol
    rfl rfl rfl (by simp) rfl (by decide)).1
